import Mathlib

/-!
Shallow embedding of the `@adaptivestone/framework-module-email` Mail module
(`src/index.ts`): template directory resolution in the constructor, the
per-file render dispatch (`#renderTemplateFile`), `renderTemplate`, the
static `sendRaw` and `getConfig`, together with the compiled-in default
configuration (`src/config/mail.ts`).

JavaScript values flowing through configuration objects are modelled by the
inductive `JValue`; JS objects are association lists where a later binding
shadows an earlier one (`lookupLast`), which is exactly the semantics of
object literals with spreads.  External collaborators (the pug engine, the
juice CSS inliner, html-to-text conversion, the filesystem) are opaque
function parameters, as the specification treats them as external pure
capabilities.
-/

/-- Model of JavaScript runtime values (strings, numbers, booleans,
functions as opaque handles, null, undefined, arrays, objects). -/
inductive JValue where
  | str : String → JValue
  | num : Int → JValue
  | bool : Bool → JValue
  | fn : Nat → JValue
  | null : JValue
  | undefVal : JValue
  | arr : List JValue → JValue
  | obj : List (String × JValue) → JValue
deriving Repr

/-- Lookup in an association list where the LAST binding for a key wins;
this matches JS object construction where later assignments and spreads
shadow earlier ones. -/
def lookupLast {α : Type} : List (String × α) → String → Option α
  | [], _ => none
  | (k, v) :: rest, key =>
    match lookupLast rest key with
    | some r => some r
    | none => if k = key then some v else none

/-- JS truthiness of a `JValue`. -/
def jsTruthy : JValue → Bool
  | .str s => !s.isEmpty
  | .num n => n != 0
  | .bool b => b
  | .fn _ => true
  | .null => false
  | .undefVal => false
  | .arr _ => true
  | .obj _ => true

mutual
/-- The `deepmerge` library (default options): arrays concatenate, plain
objects merge key by key (target keys first, then source keys, where a
source value that is mergeable and whose key is on the target is merged
recursively), any other source value replaces the target. -/
def deepmerge : JValue → JValue → JValue
  | .arr t, .arr s => .arr (t ++ s)
  | .obj t, .obj s => .obj (t ++ mergeRight t s)
  | _, s => s
termination_by _ b => sizeOf b
decreasing_by all_goals simp_wf

/-- Helper of `deepmerge`: process the source object entries against the
target entry list. -/
def mergeRight (t : List (String × JValue)) : List (String × JValue) → List (String × JValue)
  | [] => []
  | (k, v) :: rest =>
    (k, match lookupLast t k with
        | some tv => deepmerge tv v
        | none => v) :: mergeRight t rest
termination_by l => sizeOf l
decreasing_by all_goals (simp_wf <;> omega)
end

/-- JS property access `v[k]`, yielding `undefined` when absent or when the
receiver is not an object. -/
def jsGet (v : JValue) (k : String) : JValue :=
  match v with
  | .obj l => (lookupLast l k).getD .undefVal
  | _ => .undefVal

/-- JS `k in v`: whether the object has the key at all (even with an
`undefined` value). -/
def jsHasKey (v : JValue) (k : String) : Bool :=
  match v with
  | .obj l => (lookupLast l k).isSome
  | _ => false

/-- Read a property expected to be a string (used only to label which
transport the code selects). -/
def jsGetStr (v : JValue) (k : String) : String :=
  match jsGet v k with
  | .str s => s
  | _ => ""

/-- Entries contributed by a JS object spread `...v`: the entries of an
object, nothing for null or undefined (non-object spreads of other
primitive shapes are not exercised by this module and are modelled as
empty). -/
def spreadEntries : JValue → List (String × JValue)
  | .obj l => l
  | _ => []

/-- Bytewise check that `n` is a prefix of the second list. -/
def startsList : List Char → List Char → Bool
  | [], _ => true
  | _ :: _, [] => false
  | a :: as, b :: bs => a = b && startsList as bs

/-- Contiguous-sublist check on character lists. -/
def hasSub (needle : List Char) : List Char → Bool
  | [] => startsList needle []
  | c :: rest => startsList needle (c :: rest) || hasSub needle rest

/-- Model of `String.prototype.includes` for a non-empty needle:
substring containment. -/
def strContains (h n : String) : Bool := hasSub n.data h.data

/-- A single apostrophe character, as a string. -/
def apos : String := (Char.ofNat 39).toString

/-- JS `a || b` on an optional environment string: first truthy wins. -/
def jsOrStr (o : Option String) (d : String) : String :=
  match o with
  | some s => if s.isEmpty then d else s
  | none => d

/-- JS `a || b` on the result of `parseInt`: `NaN` (here `none`) and `0`
are falsy. -/
def jsOrInt (o : Option Int) (d : Int) : Int :=
  match o with
  | some n => if n = 0 then d else n
  | none => d

/-- Decimal digit list to number. -/
def digitsVal (cs : List Char) : Option Nat :=
  let ds := cs.takeWhile Char.isDigit
  if ds.isEmpty then none
  else some (ds.foldl (fun a c => a * 10 + (c.toNat - 48)) 0)

/-- Model of JS `parseInt` in base 10: skip leading spaces, optional sign,
then the longest digit prefix; `none` models `NaN`. -/
def jsParseInt (s : String) : Option Int :=
  let cs := s.data.dropWhile (fun c => c = ' ')
  match cs with
  | '-' :: rest => (digitsVal rest).map (fun n => -(n : Int))
  | '+' :: rest => (digitsVal rest).map (fun n => (n : Int))
  | _ => (digitsVal cs).map (fun n => (n : Int))

/-- A process-environment value as a JS value (`undefined` when unset). -/
def envVal (env : String → Option String) (k : String) : JValue :=
  match env k with
  | some s => .str s
  | none => .undefVal

/-- Strip leading slash characters. -/
def stripLeadingSlashes (s : String) : String :=
  String.mk (s.data.dropWhile (fun c => c = '/'))

/-- Strip trailing slash characters. -/
def stripTrailingSlashes (s : String) : String :=
  String.mk ((s.data.reverse.dropWhile (fun c => c = '/')).reverse)

/-- Model of node `path.join` for two segments: concatenate with exactly
one slash at the boundary. -/
def joinPath (a b : String) : String :=
  stripTrailingSlashes a ++ "/" ++ stripLeadingSlashes b

/-- Model of posix `path.isAbsolute`: the path starts with a slash. -/
def isAbsolute (p : String) : Bool :=
  match p.data with
  | '/' :: _ => true
  | _ => false

/-- Split a character list at every occurrence of the separator; the
semantics of JS `String.prototype.split` with a one-character separator. -/
def splitOnChar (sep : Char) : List Char → List (List Char)
  | [] => [[]]
  | c :: rest =>
    if c = sep then [] :: splitOnChar sep rest
    else
      match splitOnChar sep rest with
      | [] => [[c]]
      | g :: gs => (c :: g) :: gs

/-- Model of posix `path.basename`: final path segment, ignoring trailing
slashes. -/
def basename (p : String) : String :=
  String.mk ((splitOnChar '/' (stripTrailingSlashes p).data).getLastD [])

/-- Model of posix `path.resolve` for a single argument against a current
working directory. -/
def resolvePath (cwd p : String) : String :=
  if isAbsolute p then p else joinPath cwd p

/-- The entry list of the compiled-in default mail configuration
(`src/config/mail.ts`), parameterised by the process environment and the
working directory used by `path.resolve`. -/
def defaultMailConfigEntries (env : String → Option String) (cwd : String) :
    List (String × JValue) :=
  [("from", .str "Localhost <info@localhost>"),
   ("transports", .obj
      [("stub", .obj []),
       ("smtp", .obj
          [("host", .str (jsOrStr (env "EMAIL_HOST") "smtp.mailtrap.io")),
           ("port", .num (jsOrInt ((env "EMAIL_PORT").bind jsParseInt) 2525)),
           ("auth", .obj
              [("user", envVal env "EMAIL_USER"),
               ("pass", envVal env "EMAIL_PASSWORD")]),
           ("connectionTimeout", .num 10000)])]),
   ("transport", .str (jsOrStr (env "EMAIL_TRANSPORT") "smtp")),
   ("webResources", .obj
      [("relativeTo", .str (resolvePath cwd "src/services/messaging/email/resources")),
       ("images", .bool false)]),
   ("globalVariablesToTemplates", .obj [])]

/-- `defaultMailConfig` of `src/config/mail.ts` as a JS object value. -/
def defaultMailConfig (env : String → Option String) (cwd : String) : JValue :=
  .obj (defaultMailConfigEntries env cwd)

/-- The application context as consumed by the module (`TMinimalApp`):
the emails template root, the host framework folder, and the value the
application returns from `getConfig("mail")`. -/
structure AppCtx where
  emailsRoot : String
  frameworkFolder : String
  mailConfig : JValue

/-- `Mail.getConfig(app)`: deep-merge the default configuration with the
application-supplied `mail` configuration (`merge(defaultMailConfig,
mailConfig || \x7b\x7d)`). -/
def getConfig (env : String → Option String) (cwd : String) (appMailConfig : JValue) : JValue :=
  deepmerge (defaultMailConfig env cwd)
    (if jsTruthy appMailConfig then appMailConfig else .obj [])

/-- Result of the `Mail` constructor that the claims observe: the value of
the `template` instance field and the messages passed to
`app.logger.error`. -/
structure ConstructResult where
  template : String
  logs : List String
deriving Repr, DecidableEq

/-- The fallback warning logged by the constructor when no candidate
directory exists. -/
def notFoundMsg (template : String) : String :=
  "Template " ++ apos ++ template ++ apos ++ " not found. Using " ++ apos ++
    "emptyTemplate" ++ apos ++ " as a fallback"

/-- The `Mail` constructor logic that resolves the `template` field
(`src/index.ts`).  `fsExists` models `fs.existsSync`; `dirname` is the
module directory obtained from `import.meta.url`.  The `template` class
field is initialised to the empty string and, when the identifier is not
absolute, is assigned the first existing candidate among the application
emails root joined with the identifier basename and the module built-in
`templates` directory joined with that basename, falling back to the
built-in `emptyTemplate` directory with a logged warning.  For an absolute
identifier the code performs no assignment at all, so the field keeps its
initial empty value. -/
def constructTemplate (fsExists : String → Bool) (dirname : String)
    (app : AppCtx) (template : String) : ConstructResult :=
  if !(isAbsolute template) then
    if fsExists (app.emailsRoot ++ "/" ++ basename template) then
      ⟨app.emailsRoot ++ "/" ++ basename template, []⟩
    else if fsExists (joinPath dirname ("/templates/" ++ basename template)) then
      ⟨joinPath dirname ("/templates/" ++ basename template), []⟩
    else
      ⟨joinPath dirname "/templates/emptyTemplate", [notFoundMsg template]⟩
  else
    ⟨"", []⟩

/-- A classified template file: the render-engine token (the token after
the first dot of the filename, absent when the filename has no dot) and the
full path. -/
structure FileEntry where
  type : Option String
  fullPath : String
deriving Repr, DecidableEq

/-- Logical role of a file: the part of its name before the first dot
(`file.split(".")[0]`). -/
def roleOf (file : String) : String := String.mk ((splitOnChar '.' file.data).headD [])

/-- Render-engine token of a file: the token after the first dot, absent
when the filename has no dot (`file.split(".")[1]`). -/
def extOf (file : String) : Option String := ((splitOnChar '.' file.data)[1]?).map String.mk

/-- The `templates` map built by `renderTemplate` from the directory
listing: for each file an entry keyed by its role; a later file with the
same role overwrites an earlier one, which `lookupLast` reflects. -/
def buildTemplates (dir : String) (files : List String) : List (String × FileEntry) :=
  files.map (fun f => (roleOf f, ⟨extOf f, joinPath dir f⟩))

/-- `Mail.#renderTemplateFile`: when the entry is missing, or its engine
token or full path is falsy, resolve to `null`; for the verbatim engines
`html`, `text`, `css` read the file; for `pug` compile the file with the
render data; for any other token reject with the unsupported-type error.
`readFile` models `fs.promises.readFile` and `pug` models
`pug.compileFile` followed by evaluation on the data. -/
def renderTemplateFile (readFile : String → String)
    (pug : String → List (String × JValue) → String)
    (entry : Option FileEntry) (tdata : List (String × JValue)) :
    Except String (Option String) :=
  match entry with
  | none => .ok none
  | some e =>
    match e.type with
    | none => .ok none
    | some t =>
      if t = "" ∨ e.fullPath = "" then .ok none
      else if t = "html" ∨ t = "text" ∨ t = "css" then .ok (some (readFile e.fullPath))
      else if t = "pug" then .ok (some (pug e.fullPath tdata))
      else .error ("Template type " ++ t ++ " is not supported")

/-- The error thrown by `renderTemplate` when the `html` or `subject` role
is missing. -/
def missingTemplateMsg : String :=
  "Template HTML and Subject must be provided. Please follow documentation for details https://framework.adaptivestone.com/docs/email"

/-- The render data object built by `renderTemplate`: the object literal
with `locale` and `t`, then the spread of the configuration globals, then
the spread of the request template data (later entries shadow earlier
ones). -/
def templateDataToRender (locale : String) (tTok : JValue)
    (globals templateData : List (String × JValue)) : List (String × JValue) :=
  [("locale", JValue.str locale), ("t", tTok)] ++ globals ++ templateData

/-- The artifacts returned by `renderTemplate`. -/
structure Artifacts where
  htmlRaw : Option String
  subject : Option String
  text : Option String
  inlinedHTML : String
deriving Repr, DecidableEq

/-- `Mail.renderTemplate`: list the resolved directory, classify files by
role and engine token, require `html` and `subject` roles, build the
render data from the effective configuration, render the four roles, then
inline CSS through the external `juiceFn` (modelling
`juice.juiceResources` with `preserveImportant` and the configured
`webResources`), which receives the rendered html, the configured web
resources and the rendered style as extra CSS. -/
def renderTemplate (env : String → Option String) (cwd : String)
    (readFile : String → String)
    (pug : String → List (String × JValue) → String)
    (juiceFn : Option String → JValue → Option String → Except String String)
    (app : AppCtx) (tmpl : String) (locale : String) (tTok : JValue)
    (templateData : List (String × JValue)) (files : List String) :
    Except String Artifacts :=
  let templates := buildTemplates tmpl files
  if lookupLast templates "html" = none ∨ lookupLast templates "subject" = none then
    .error missingTemplateMsg
  else
    let mailConfig := getConfig env cwd app.mailConfig
    let d := templateDataToRender locale tTok
      (spreadEntries (jsGet mailConfig "globalVariablesToTemplates")) templateData
    match renderTemplateFile readFile pug (lookupLast templates "html") d with
    | .error e => .error e
    | .ok htmlRendered =>
      match renderTemplateFile readFile pug (lookupLast templates "subject") d with
      | .error e => .error e
      | .ok subjectRendered =>
        match renderTemplateFile readFile pug (lookupLast templates "text") d with
        | .error e => .error e
        | .ok textRendered =>
          match renderTemplateFile readFile pug (lookupLast templates "style") [] with
          | .error e => .error e
          | .ok extraCss =>
            match juiceFn htmlRendered (jsGet mailConfig "webResources") extraCss with
            | .error e => .error e
            | .ok inlinedHTML => .ok ⟨htmlRendered, subjectRendered, textRendered, inlinedHTML⟩

/-- Observable side effects of `Mail.sendRaw`, in program order. -/
inductive Effect where
  | readConfig : Effect
  | createTransport : String → Effect
  | sendMail : Effect
deriving Repr, DecidableEq

/-- The combined validation error of `Mail.sendRaw`. -/
def requiredFieldsMsg : String := "App, to, subject and html is required fields."

/-- `Mail.sendRaw`: validate that `app`, `to`, `subject` and `html` are
truthy, read the effective configuration, default `from` from the
configuration and `text` from the html via the external `convert`
(html-to-text with images skipped), select the configured transport, and
hand the assembled message (with the caller extra options spread last) to
it.  The result pairs the outcome with the ordered effect list; a
validation failure performs no effect at all. -/
def sendRaw (env : String → Option String) (cwd : String)
    (convert : String → String) (app : Option AppCtx)
    (toAddr subject html : String) (text fromAddr : Option String)
    (extra : List (String × JValue)) :
    Except String (List (String × JValue)) × List Effect :=
  match app with
  | none => (.error requiredFieldsMsg, [])
  | some a =>
    if toAddr = "" ∨ subject = "" ∨ html = "" then (.error requiredFieldsMsg, [])
    else
      let mailConfig := getConfig env cwd a.mailConfig
      let fromVal : JValue :=
        match fromAddr with
        | none => jsGet mailConfig "from"
        | some s => if s = "" then jsGet mailConfig "from" else .str s
      let textVal : String :=
        match text with
        | none => convert html
        | some s => if s = "" then convert html else s
      let transportName := jsGetStr mailConfig "transport"
      let message :=
        [("from", fromVal), ("to", JValue.str toAddr), ("subject", JValue.str subject),
         ("text", JValue.str textVal), ("html", JValue.str html)] ++ extra
      (.ok message, [.readConfig, .createTransport transportName, .sendMail])

theorem lookupLast_append {α : Type} (a b : List (String × α)) (k : String) :
    lookupLast (a ++ b) k =
      match lookupLast b k with
      | some v => some v
      | none => lookupLast a k := by
  induction a with
  | nil => cases h : lookupLast b k <;> simp [lookupLast, h]
  | cons p rest ih =>
    obtain ⟨k1, v1⟩ := p
    show (match lookupLast (rest ++ b) k with
          | some r => some r
          | none => if k1 = k then some v1 else none) = _
    rw [ih]
    cases h : lookupLast b k <;> rfl

theorem startsList_append_self (n x : List Char) : startsList n (n ++ x) = true := by
  induction n with
  | nil => rfl
  | cons c cs ih => simp [startsList, ih]

theorem hasSub_self_append (n b : List Char) : hasSub n (n ++ b) = true := by
  cases n with
  | nil => cases b <;> simp [hasSub, startsList]
  | cons c cs => simp [hasSub, startsList, startsList_append_self]

theorem hasSub_middle (a n b : List Char) : hasSub n (a ++ (n ++ b)) = true := by
  induction a with
  | nil => exact hasSub_self_append n b
  | cons c cs ih => simp [hasSub, ih]

theorem strContains_sandwich (a n b : String) : strContains (a ++ n ++ b) n = true := by
  unfold strContains
  have hd : (a ++ n ++ b).data = a.data ++ (n.data ++ b.data) := by
    rw [String.data_append, String.data_append, List.append_assoc]
  rw [hd]
  exact hasSub_middle a.data n.data b.data

theorem joinPath_ne_empty (a b : String) : joinPath a b ≠ "" := by
  unfold joinPath
  intro h
  have hd := congrArg String.data h
  rw [String.data_append, String.data_append] at hd
  simp at hd

theorem templateTypeMsg_ne_missing (t : String) :
    ("Template type " ++ t ++ " is not supported") ≠ missingTemplateMsg := by
  intro h
  have hd : ("Template type " ++ t ++ " is not supported").data = missingTemplateMsg.data := by
    rw [h]
  rw [String.data_append, String.data_append, List.append_assoc] at hd
  have h1 : startsList "Template type ".data
      ("Template type ".data ++ (t.data ++ " is not supported".data)) = true :=
    startsList_append_self _ _
  rw [hd] at h1
  exact absurd h1 (by decide)

theorem renderTemplateFile_error_shape (readFile : String → String)
    (pug : String → List (String × JValue) → String) (entry : Option FileEntry)
    (tdata : List (String × JValue)) (e : String)
    (h : renderTemplateFile readFile pug entry tdata = .error e) :
    ∃ t, e = "Template type " ++ t ++ " is not supported" := by
  cases entry with
  | none => simp [renderTemplateFile] at h
  | some fe =>
    cases hft : fe.type with
    | none => simp [renderTemplateFile, hft] at h
    | some t =>
      simp only [renderTemplateFile, hft] at h
      split_ifs at h
      injection h with h
      exact ⟨t, h.symm⟩

/-- Claim C1 (code bug evidence): the constructor never probes the
framework-level template root.  With a filesystem on which the
framework-level directory `frameworkFolder/services/messaging/email/templates/emptyTemplate`
exists and the application-level directory does not, the code resolves to
the module built-in directory, not the framework one, and the result does
not change when the framework folder is different: `constructTemplate`
reads only the application emails root and the module directory. -/
theorem constructor_skips_framework_root :
    constructTemplate
        (fun p => p = "/fw/services/messaging/email/templates/emptyTemplate" ||
          p = "/module/templates/emptyTemplate")
        "/module" ⟨"/app/emails", "/fw", JValue.null⟩ "emptyTemplate" =
      ⟨"/module/templates/emptyTemplate", []⟩ ∧
    constructTemplate
        (fun p => p = "/fw/services/messaging/email/templates/emptyTemplate" ||
          p = "/module/templates/emptyTemplate")
        "/module" ⟨"/app/emails", "/other-framework", JValue.null⟩ "emptyTemplate" =
      ⟨"/module/templates/emptyTemplate", []⟩ ∧
    ("/module/templates/emptyTemplate" : String) ≠
      "/fw/services/messaging/email/templates/emptyTemplate" :=
  ⟨by decide, by decide, by decide⟩

/-- Claim C2 (code bug evidence): for an absolute template identifier the
constructor performs no assignment to the `template` field, so it keeps
its initial empty value even when every candidate directory exists; in
particular it does not equal the given absolute path and does not contain
the template name. -/
theorem constructor_absolute_path_left_empty :
    constructTemplate (fun _ => true) "/module" ⟨"/app/emails", "/fw", JValue.null⟩
        "/tmp/mail-test/test-template" = ⟨"", []⟩ ∧
    strContains "" "test-template" = false ∧
    ("" : String) ≠ "/tmp/mail-test/test-template" :=
  ⟨by decide, by decide, by decide⟩

/-- Claim C3: for a non-absolute template identifier for which neither the
application-level candidate nor the module built-in candidate exists, the
constructor does not fail: it resolves the template to the built-in
`emptyTemplate` directory and logs exactly one error message, which names
the missing template (the model `constructTemplate` is a total function,
so no exception is possible). -/
theorem constructor_fallback_emptyTemplate (fs : String → Bool) (dirname : String)
    (app : AppCtx) (template : String)
    (habs : isAbsolute template = false)
    (h1 : fs (app.emailsRoot ++ "/" ++ basename template) = false)
    (h2 : fs (joinPath dirname ("/templates/" ++ basename template)) = false) :
    constructTemplate fs dirname app template =
      ⟨joinPath dirname "/templates/emptyTemplate", [notFoundMsg template]⟩ ∧
    strContains (notFoundMsg template) template = true := by
  constructor
  · simp [constructTemplate, habs, h1, h2]
  · unfold notFoundMsg
    have h := strContains_sandwich ("Template " ++ apos) template
      (apos ++ " not found. Using " ++ apos ++ "emptyTemplate" ++ apos ++ " as a fallback")
    simpa [String.append_assoc] using h

/-- Concrete instantiation of the missing-template fallback: no candidate
exists at all, the template resolves to the built-in `emptyTemplate` and
exactly one warning naming the template is logged. -/
theorem constructor_fallback_emptyTemplate_witness :
    constructTemplate (fun _ => false) "/mod" ⟨"/app", "/fw", JValue.null⟩ "missing" =
      ⟨joinPath "/mod" "/templates/emptyTemplate", [notFoundMsg "missing"]⟩ ∧
    strContains (notFoundMsg "missing") "missing" = true :=
  constructor_fallback_emptyTemplate (fun _ => false) "/mod" ⟨"/app", "/fw", JValue.null⟩
    "missing" (by decide) (by decide) (by decide)

/-- Claim C6: whenever `app`, `to`, `subject` or `html` is falsy (absent
or the empty string), `sendRaw` rejects with exactly the single combined
message, and the effect list is empty: the effective configuration is not
read and no transport is constructed or invoked. -/
theorem sendRaw_validation_combined_error (env : String → Option String) (cwd : String)
    (convert : String → String) (app : Option AppCtx) (toAddr subject html : String)
    (text fromAddr : Option String) (extra : List (String × JValue))
    (h : app = none ∨ toAddr = "" ∨ subject = "" ∨ html = "") :
    sendRaw env cwd convert app toAddr subject html text fromAddr extra =
      (.error requiredFieldsMsg, []) := by
  cases app with
  | none => simp [sendRaw]
  | some a =>
    rcases h with h | h | h | h
    · exact absurd h (by simp)
    all_goals simp [sendRaw, h]

/-- Concrete instantiation: `sendRaw` with an empty `to` rejects with the
combined message and performs no effect. -/
theorem sendRaw_validation_combined_error_witness :
    sendRaw (fun _ => none) "/cwd" (fun s => s)
        (some ⟨"/app", "/fw", JValue.null⟩) "" "subject" "html" none none [] =
      (.error requiredFieldsMsg, []) :=
  sendRaw_validation_combined_error (fun _ => none) "/cwd" (fun s => s)
    (some ⟨"/app", "/fw", JValue.null⟩) "" "subject" "html" none none []
    (Or.inr (Or.inl rfl))

/-- Claim C9: in `sendRaw` an empty-string `from` argument is treated like
an omitted one: when the caller `from` is falsy (and the extra options do
not override `from`), the assembled message carries the effective
configuration `from` value. -/
theorem sendRaw_empty_from_falls_back_to_config (env : String → Option String)
    (cwd : String) (convert : String → String) (a : AppCtx)
    (toAddr subject html : String) (text fromAddr : Option String)
    (extra : List (String × JValue))
    (hto : toAddr ≠ "") (hs : subject ≠ "") (hh : html ≠ "")
    (hfrom : fromAddr = none ∨ fromAddr = some "")
    (hex : lookupLast extra "from" = none) :
    ∃ msg effs,
      sendRaw env cwd convert (some a) toAddr subject html text fromAddr extra =
        (.ok msg, effs) ∧
      lookupLast msg "from" = some (jsGet (getConfig env cwd a.mailConfig) "from") := by
  simp only [sendRaw]
  rw [if_neg (by tauto)]
  refine ⟨_, _, rfl, ?_⟩
  rw [lookupLast_append, hex]
  rcases hfrom with h | h <;> subst h <;> simp [lookupLast]

/-- Concrete instantiation: `from` passed as the empty string yields a
message whose `from` is the configured one. -/
theorem sendRaw_empty_from_falls_back_to_config_witness :
    ∃ msg effs,
      sendRaw (fun _ => none) "/cwd" (fun s => s) (some ⟨"/app", "/fw", JValue.null⟩)
          "r@test" "subject" "html" none (some "") [] = (.ok msg, effs) ∧
      lookupLast msg "from" =
        some (jsGet (getConfig (fun _ => none) "/cwd" (JValue.null : JValue)) "from") :=
  sendRaw_empty_from_falls_back_to_config (fun _ => none) "/cwd" (fun s => s)
    ⟨"/app", "/fw", JValue.null⟩ "r@test" "subject" "html" none (some "") []
    (by decide) (by decide) (by decide) (Or.inr rfl) rfl

theorem jsHasKey_getConfig_of_default (env : String → Option String) (cwd : String)
    (v : JValue) (hv : v = .null ∨ v = .undefVal ∨ ∃ l, v = .obj l) (k : String)
    (hk : (lookupLast (defaultMailConfigEntries env cwd) k).isSome = true) :
    jsHasKey (getConfig env cwd v) k = true := by
  rcases hv with h | h | ⟨l, h⟩ <;> subst h
  · simpa [getConfig, jsTruthy, deepmerge, mergeRight, defaultMailConfig, jsHasKey]
      using hk
  · simpa [getConfig, jsTruthy, deepmerge, mergeRight, defaultMailConfig, jsHasKey]
      using hk
  · cases hl : jsTruthy (JValue.obj l) with
    | true =>
      simp only [getConfig, hl, if_pos, defaultMailConfig, deepmerge, jsHasKey]
      rw [lookupLast_append]
      cases hm : lookupLast (mergeRight (defaultMailConfigEntries env cwd) l) k
      · simpa using hk
      · simp
    | false => simp [jsTruthy] at hl

/-- Claim C8: `getConfig` is total (the model is a Lean function, so it
never throws) and, for an application mail configuration that is null,
undefined or any object, the merged configuration always carries the keys
`from`, `transport`, `transports`, `webResources` and
`globalVariablesToTemplates`; with no override at all (null or the empty
object) it equals the compiled-in default. -/
theorem getConfig_always_complete (env : String → Option String) (cwd : String)
    (v : JValue) (hv : v = .null ∨ v = .undefVal ∨ ∃ l, v = .obj l) :
    jsHasKey (getConfig env cwd v) "from" = true ∧
    jsHasKey (getConfig env cwd v) "transport" = true ∧
    jsHasKey (getConfig env cwd v) "transports" = true ∧
    jsHasKey (getConfig env cwd v) "webResources" = true ∧
    jsHasKey (getConfig env cwd v) "globalVariablesToTemplates" = true ∧
    getConfig env cwd .null = defaultMailConfig env cwd ∧
    getConfig env cwd (.obj []) = defaultMailConfig env cwd := by
  refine ⟨jsHasKey_getConfig_of_default env cwd v hv "from" rfl,
    jsHasKey_getConfig_of_default env cwd v hv "transport" rfl,
    jsHasKey_getConfig_of_default env cwd v hv "transports" rfl,
    jsHasKey_getConfig_of_default env cwd v hv "webResources" rfl,
    jsHasKey_getConfig_of_default env cwd v hv "globalVariablesToTemplates" rfl,
    ?_, ?_⟩ <;>
  simp [getConfig, jsTruthy, deepmerge, mergeRight, defaultMailConfig]

/-- Concrete instantiation: with no environment variables, a fresh working
directory and a null application override, all five keys are present and
the result is the default configuration. -/
theorem getConfig_always_complete_witness :
    jsHasKey (getConfig (fun _ => none) "/cwd" JValue.null) "from" = true ∧
    jsHasKey (getConfig (fun _ => none) "/cwd" JValue.null) "transport" = true ∧
    jsHasKey (getConfig (fun _ => none) "/cwd" JValue.null) "transports" = true ∧
    jsHasKey (getConfig (fun _ => none) "/cwd" JValue.null) "webResources" = true ∧
    jsHasKey (getConfig (fun _ => none) "/cwd" JValue.null) "globalVariablesToTemplates" = true ∧
    getConfig (fun _ => none) "/cwd" .null = defaultMailConfig (fun _ => none) "/cwd" ∧
    getConfig (fun _ => none) "/cwd" (.obj []) = defaultMailConfig (fun _ => none) "/cwd" :=
  getConfig_always_complete (fun _ => none) "/cwd" JValue.null (Or.inl rfl)

/-- Claim C5: per-file render dispatch is asymmetric in the engine token.
A file whose engine token (the token after the first dot of its name) is a
non-empty string outside html, text, css, pug is rejected with the
unsupported-type error naming the token, while a file with no dot at all
(no engine token) is not an error: its render degrades silently to a null
result. -/
theorem renderTemplateFile_unsupported_vs_extensionless
    (readFile : String → String) (pug : String → List (String × JValue) → String)
    (d : List (String × JValue)) (tmpl fname t : String)
    (h1 : extOf fname = some t) (h2 : t ≠ "")
    (h3 : t ≠ "html") (h4 : t ≠ "text") (h5 : t ≠ "css") (h6 : t ≠ "pug") :
    renderTemplateFile readFile pug (some ⟨extOf fname, joinPath tmpl fname⟩) d =
      .error ("Template type " ++ t ++ " is not supported") ∧
    (∀ fname2 : String, extOf fname2 = none →
      renderTemplateFile readFile pug (some ⟨extOf fname2, joinPath tmpl fname2⟩) d =
        .ok none) := by
  constructor
  · simp only [renderTemplateFile, h1]
    rw [if_neg (by exact not_or.mpr ⟨h2, joinPath_ne_empty tmpl fname⟩),
      if_neg (by tauto), if_neg h6]
  · intro fname2 hf2
    simp [renderTemplateFile, hf2]

/-- Concrete instantiation: `html.fakeExtension` is rejected with the
unsupported-type error; the extensionless file `html` renders to null. -/
theorem renderTemplateFile_unsupported_vs_extensionless_witness :
    renderTemplateFile (fun _ => "") (fun _ _ => "")
        (some ⟨extOf "html.fakeExtension", joinPath "/tpl" "html.fakeExtension"⟩) [] =
      .error ("Template type " ++ "fakeExtension" ++ " is not supported") ∧
    (∀ fname2 : String, extOf fname2 = none →
      renderTemplateFile (fun _ => "") (fun _ _ => "")
          (some ⟨extOf fname2, joinPath "/tpl" fname2⟩) [] = .ok none) :=
  renderTemplateFile_unsupported_vs_extensionless (fun _ => "") (fun _ _ => "")
    [] "/tpl" "html.fakeExtension" "fakeExtension"
    (by decide) (by decide) (by decide) (by decide) (by decide) (by decide)

/-- Claim C10: in the render data object the configuration globals are
spread after the built-in `locale` and `t` entries, so a global named
`locale` or `t` shadows the request locale and translator; only an entry
in the request template data (spread last) restores them. -/
theorem globals_spread_shadows_locale_and_t (locale : String) (tTok : JValue)
    (gl tdata : List (String × JValue)) :
    (∀ w, lookupLast tdata "locale" = none → lookupLast gl "locale" = some w →
      lookupLast (templateDataToRender locale tTok gl tdata) "locale" = some w) ∧
    (∀ w, lookupLast tdata "t" = none → lookupLast gl "t" = some w →
      lookupLast (templateDataToRender locale tTok gl tdata) "t" = some w) ∧
    (∀ v, lookupLast tdata "locale" = some v →
      lookupLast (templateDataToRender locale tTok gl tdata) "locale" = some v) ∧
    (∀ v, lookupLast tdata "t" = some v →
      lookupLast (templateDataToRender locale tTok gl tdata) "t" = some v) ∧
    (lookupLast tdata "locale" = none → lookupLast gl "locale" = none →
      lookupLast (templateDataToRender locale tTok gl tdata) "locale" =
        some (JValue.str locale)) := by
  refine ⟨?_, ?_, ?_, ?_, ?_⟩ <;>
    intros <;>
    simp_all [templateDataToRender, lookupLast_append, lookupLast]

/-- Concrete instantiation: a global `locale` of `"de"` and a global `t`
handle shadow the request values when the template data is empty, and a
template-data `locale` wins back. -/
theorem globals_spread_shadows_locale_and_t_witness :
    lookupLast (templateDataToRender "en" (JValue.fn 0)
        [("locale", JValue.str "de"), ("t", JValue.fn 1)] []) "locale" =
      some (JValue.str "de") ∧
    lookupLast (templateDataToRender "en" (JValue.fn 0)
        [("locale", JValue.str "de"), ("t", JValue.fn 1)] []) "t" =
      some (JValue.fn 1) ∧
    lookupLast (templateDataToRender "en" (JValue.fn 0)
        [("locale", JValue.str "de"), ("t", JValue.fn 1)]
        [("locale", JValue.str "fr")]) "locale" = some (JValue.str "fr") := by
  refine ⟨?_, ?_, ?_⟩
  · exact (globals_spread_shadows_locale_and_t "en" (JValue.fn 0)
      [("locale", JValue.str "de"), ("t", JValue.fn 1)] []).1 (JValue.str "de") rfl rfl
  · exact (globals_spread_shadows_locale_and_t "en" (JValue.fn 0)
      [("locale", JValue.str "de"), ("t", JValue.fn 1)] []).2.1 (JValue.fn 1) rfl rfl
  · exact (globals_spread_shadows_locale_and_t "en" (JValue.fn 0)
      [("locale", JValue.str "de"), ("t", JValue.fn 1)]
      [("locale", JValue.str "fr")]).2.2.1 (JValue.str "fr") rfl

/-- The pug branch of the per-file render: a pug-typed entry with a
non-empty path renders by applying the engine to the render data. -/
theorem renderTemplateFile_pug (readFile : String → String)
    (pug : String → List (String × JValue) → String) (path : String)
    (d : List (String × JValue)) (hp : path ≠ "") :
    renderTemplateFile readFile pug (some ⟨some "pug", path⟩) d =
      .ok (some (pug path d)) := by
  simp [renderTemplateFile, hp]


/-- Claim C7: for a template directory holding `html.pug` and
`subject.pug`, `renderTemplate` feeds the pug engine exactly the merge of
the built-in `locale` and `t` entries, the effective configuration
`globalVariablesToTemplates`, and the request template data, in that
spread order; hence a key present in both the request data and the globals
resolves to the request value, a key only in the globals resolves to the
global value, and `locale` falls back to the request locale when nobody
shadows it. -/
theorem renderTemplate_pug_data_merge (env : String → Option String) (cwd : String)
    (readFile : String → String) (pug : String → List (String × JValue) → String)
    (juiceFn : Option String → JValue → Option String → Except String String)
    (app : AppCtx) (tmpl locale : String) (tTok : JValue)
    (tdata gl : List (String × JValue))
    (hg : jsGet (getConfig env cwd app.mailConfig) "globalVariablesToTemplates" = .obj gl) :
    (renderTemplate env cwd readFile pug juiceFn app tmpl locale tTok tdata
        ["html.pug", "subject.pug"] =
      (juiceFn
          (some (pug (joinPath tmpl "html.pug") (templateDataToRender locale tTok gl tdata)))
          (jsGet (getConfig env cwd app.mailConfig) "webResources") none).map
        (fun i =>
          ⟨some (pug (joinPath tmpl "html.pug") (templateDataToRender locale tTok gl tdata)),
           some (pug (joinPath tmpl "subject.pug") (templateDataToRender locale tTok gl tdata)),
           none, i⟩)) ∧
    (∀ k v w, lookupLast tdata k = some v → lookupLast gl k = some w →
      lookupLast (templateDataToRender locale tTok gl tdata) k = some v) ∧
    (∀ k w, lookupLast tdata k = none → lookupLast gl k = some w →
      lookupLast (templateDataToRender locale tTok gl tdata) k = some w) ∧
    (lookupLast tdata "locale" = none → lookupLast gl "locale" = none →
      lookupLast (templateDataToRender locale tTok gl tdata) "locale" =
        some (JValue.str locale)) ∧
    (lookupLast tdata "t" = none → lookupLast gl "t" = none →
      lookupLast (templateDataToRender locale tTok gl tdata) "t" = some tTok) := by
  refine ⟨?_, ?_, ?_, ?_, ?_⟩
  · have hbt : buildTemplates tmpl ["html.pug", "subject.pug"] =
        [("html", ⟨some "pug", joinPath tmpl "html.pug"⟩),
         ("subject", ⟨some "pug", joinPath tmpl "subject.pug"⟩)] := rfl
    have hl1 : lookupLast
        [("html", (⟨some "pug", joinPath tmpl "html.pug"⟩ : FileEntry)),
         ("subject", ⟨some "pug", joinPath tmpl "subject.pug"⟩)] "html" =
        some ⟨some "pug", joinPath tmpl "html.pug"⟩ := rfl
    have hl2 : lookupLast
        [("html", (⟨some "pug", joinPath tmpl "html.pug"⟩ : FileEntry)),
         ("subject", ⟨some "pug", joinPath tmpl "subject.pug"⟩)] "subject" =
        some ⟨some "pug", joinPath tmpl "subject.pug"⟩ := rfl
    have hl3 : lookupLast
        [("html", (⟨some "pug", joinPath tmpl "html.pug"⟩ : FileEntry)),
         ("subject", ⟨some "pug", joinPath tmpl "subject.pug"⟩)] "text" = none := rfl
    have hl4 : lookupLast
        [("html", (⟨some "pug", joinPath tmpl "html.pug"⟩ : FileEntry)),
         ("subject", ⟨some "pug", joinPath tmpl "subject.pug"⟩)] "style" = none := rfl
    simp only [renderTemplate, hbt, hg, spreadEntries, hl1, hl2, hl3, hl4]
    rw [if_neg (by simp)]
    rw [renderTemplateFile_pug readFile pug _ _ (joinPath_ne_empty tmpl "html.pug"),
      renderTemplateFile_pug readFile pug _ _ (joinPath_ne_empty tmpl "subject.pug")]
    have hnone : renderTemplateFile readFile pug none
        (templateDataToRender locale tTok gl tdata) = .ok none := rfl
    have hnone2 : renderTemplateFile readFile pug none [] = .ok none := rfl
    rw [hnone, hnone2]
    cases hjv : juiceFn
        (some (pug (joinPath tmpl "html.pug") (templateDataToRender locale tTok gl tdata)))
        (jsGet (getConfig env cwd app.mailConfig) "webResources") none <;>
      simp [Except.map, hjv]
  all_goals (intros; simp_all [templateDataToRender, lookupLast_append, lookupLast])

theorem getConfig_null_globals (env : String → Option String) (cwd : String) :
    jsGet (getConfig env cwd JValue.null) "globalVariablesToTemplates" =
      JValue.obj [] := by
  simp [getConfig, jsTruthy, defaultMailConfig, deepmerge, mergeRight, jsGet,
    defaultMailConfigEntries, lookupLast]

theorem mergeRight_nil (l : List (String × JValue)) : mergeRight [] l = l := by
  induction l with
  | nil => simp [mergeRight]
  | cons p rest ih =>
    obtain ⟨k, v⟩ := p
    simp [mergeRight, lookupLast, ih]

theorem jsGet_getConfig_globals_obj (env : String → Option String) (cwd : String)
    (gl : List (String × JValue)) :
    jsGet (getConfig env cwd
        (JValue.obj [("globalVariablesToTemplates", JValue.obj gl)]))
      "globalVariablesToTemplates" = JValue.obj gl := by
  have ht : jsTruthy (JValue.obj [("globalVariablesToTemplates", JValue.obj gl)]) = true := rfl
  have hlk : lookupLast (defaultMailConfigEntries env cwd)
      "globalVariablesToTemplates" = some (JValue.obj []) := rfl
  unfold getConfig
  rw [ht, if_pos rfl]
  unfold defaultMailConfig
  simp only [deepmerge, mergeRight, hlk, mergeRight_nil, List.nil_append, jsGet]
  rw [lookupLast_append]
  simp [lookupLast]

/-- Concrete instantiation: with a null application override the globals
are empty and rendering `html.pug`/`subject.pug` applies the engine to the
merged data; with an application override supplying a global `name`, the
request template data wins for `name`, and a global-only `brand` key is
visible in the merged data. -/
theorem renderTemplate_pug_data_merge_witness :
    (renderTemplate (fun _ => none) "/c" (fun _ => "") (fun _ _ => "P")
        (fun _ _ _ => Except.ok "I") ⟨"/a", "/f", JValue.null⟩ "/t" "en" (JValue.fn 0)
        [("name", JValue.str "John")] ["html.pug", "subject.pug"] =
      ((fun (_ : Option String) (_ : JValue) (_ : Option String) =>
          (Except.ok "I" : Except String String))
          (some ((fun (_ : String) (_ : List (String × JValue)) => "P")
            (joinPath "/t" "html.pug")
            (templateDataToRender "en" (JValue.fn 0) []
              [("name", JValue.str "John")])))
          (jsGet (getConfig (fun _ => none) "/c"
            (AppCtx.mk "/a" "/f" JValue.null).mailConfig) "webResources") none).map
        (fun i =>
          ⟨some ((fun (_ : String) (_ : List (String × JValue)) => "P")
              (joinPath "/t" "html.pug")
              (templateDataToRender "en" (JValue.fn 0) []
                [("name", JValue.str "John")])),
           some ((fun (_ : String) (_ : List (String × JValue)) => "P")
              (joinPath "/t" "subject.pug")
              (templateDataToRender "en" (JValue.fn 0) []
                [("name", JValue.str "John")])),
           none, i⟩)) ∧
    lookupLast (templateDataToRender "en" (JValue.fn 0) [("name", JValue.str "old")]
        [("name", JValue.str "John")]) "name" = some (JValue.str "John") ∧
    lookupLast (templateDataToRender "en" (JValue.fn 0) [("brand", JValue.str "acme")]
        []) "brand" = some (JValue.str "acme") := by
  refine ⟨?_, ?_, ?_⟩
  · exact (renderTemplate_pug_data_merge (fun _ => none) "/c" (fun _ => "")
      (fun _ _ => "P") (fun _ _ _ => Except.ok "I") ⟨"/a", "/f", JValue.null⟩
      "/t" "en" (JValue.fn 0) [("name", JValue.str "John")] []
      (getConfig_null_globals (fun _ => none) "/c")).1
  · refine ((renderTemplate_pug_data_merge (fun _ => none) "/c" (fun _ => "")
      (fun _ _ => "P") (fun _ _ _ => Except.ok "I")
      ⟨"/a", "/f", JValue.obj [("globalVariablesToTemplates",
        JValue.obj [("name", JValue.str "old")])]⟩
      "/t" "en" (JValue.fn 0) [("name", JValue.str "John")]
      [("name", JValue.str "old")] ?hg2).2.1 "name" (JValue.str "John")
      (JValue.str "old") rfl rfl : _)
    case hg2 =>
      exact jsGet_getConfig_globals_obj (fun _ => none) "/c"
        [("name", JValue.str "old")]
  · refine ((renderTemplate_pug_data_merge (fun _ => none) "/c" (fun _ => "")
      (fun _ _ => "P") (fun _ _ _ => Except.ok "I")
      ⟨"/a", "/f", JValue.obj [("globalVariablesToTemplates",
        JValue.obj [("brand", JValue.str "acme")])]⟩
      "/t" "en" (JValue.fn 0) [] [("brand", JValue.str "acme")] ?hg3).2.2.1 "brand"
      (JValue.str "acme") rfl rfl : _)
    case hg3 =>
      exact jsGet_getConfig_globals_obj (fun _ => none) "/c"
        [("brand", JValue.str "acme")]

/-- Claim C4: `renderTemplate` rejects with the required-roles message
exactly when the directory file set lacks a file whose role (name before
the first dot) is `html` or lacks one whose role is `subject`; the message
contains "Template HTML and Subject must be provided".  In particular a
missing `text` or `style` role never triggers this rejection (when `html`
and `subject` are present the result is never this error).  The `juiceFn`
hypothesis records that the external CSS inliner does not itself emit this
module's message. -/
theorem renderTemplate_requires_html_and_subject (env : String → Option String)
    (cwd : String) (readFile : String → String)
    (pug : String → List (String × JValue) → String)
    (juiceFn : Option String → JValue → Option String → Except String String)
    (app : AppCtx) (tmpl locale : String) (tTok : JValue)
    (tdata : List (String × JValue)) (files : List String)
    (hj : ∀ h w c, juiceFn h w c ≠ .error missingTemplateMsg) :
    (renderTemplate env cwd readFile pug juiceFn app tmpl locale tTok tdata files =
        .error missingTemplateMsg ↔
      (lookupLast (buildTemplates tmpl files) "html" = none ∨
       lookupLast (buildTemplates tmpl files) "subject" = none)) ∧
    strContains missingTemplateMsg "Template HTML and Subject must be provided" = true := by
  constructor
  · constructor
    · intro h
      by_contra hne
      simp only [renderTemplate] at h
      rw [if_neg hne] at h
      split at h
      next e heq =>
        injection h with h
        subst h
        obtain ⟨t, ht⟩ := renderTemplateFile_error_shape _ _ _ _ _ heq
        exact templateTypeMsg_ne_missing t ht.symm
      next v1 heq1 =>
        split at h
        next e heq =>
          injection h with h
          subst h
          obtain ⟨t, ht⟩ := renderTemplateFile_error_shape _ _ _ _ _ heq
          exact templateTypeMsg_ne_missing t ht.symm
        next v2 heq2 =>
          split at h
          next e heq =>
            injection h with h
            subst h
            obtain ⟨t, ht⟩ := renderTemplateFile_error_shape _ _ _ _ _ heq
            exact templateTypeMsg_ne_missing t ht.symm
          next v3 heq3 =>
            split at h
            next e heq =>
              injection h with h
              subst h
              obtain ⟨t, ht⟩ := renderTemplateFile_error_shape _ _ _ _ _ heq
              exact templateTypeMsg_ne_missing t ht.symm
            next v4 heq4 =>
              split at h
              next e heq =>
                injection h with h
                subst h
                exact hj _ _ _ heq
              next i heq5 =>
                exact Except.noConfusion h
    · intro hmiss
      simp only [renderTemplate]
      rw [if_pos hmiss]
  · decide

/-- Concrete instantiation: a directory with only `html.pug` rejects with
the required-roles message (its `subject` lookup is `none`), and the
message carries the documented phrase. -/
theorem renderTemplate_requires_html_and_subject_witness :
    (renderTemplate (fun _ => none) "/c" (fun _ => "") (fun _ _ => "P")
        (fun _ _ _ => Except.ok "I") ⟨"/a", "/f", JValue.null⟩ "/t" "en" (JValue.fn 0)
        [] ["html.pug"] = .error missingTemplateMsg ↔
      (lookupLast (buildTemplates "/t" ["html.pug"]) "html" = none ∨
       lookupLast (buildTemplates "/t" ["html.pug"]) "subject" = none)) ∧
    strContains missingTemplateMsg "Template HTML and Subject must be provided" = true :=
  renderTemplate_requires_html_and_subject (fun _ => none) "/c" (fun _ => "")
    (fun _ _ => "P") (fun _ _ _ => Except.ok "I") ⟨"/a", "/f", JValue.null⟩ "/t" "en"
    (JValue.fn 0) [] ["html.pug"] (by intro h w c; simp)
